import Mathlib

/-!
Shallow embedding of the sandboxed code-execution engine of this repository
(executor service, class DockerExecutor, method execute_code).

The pure decision logic of execute_code is transcribed directly from the
source.  Interactions with the container runtime (the docker daemon) are
abstracted by an oracle that supplies, for each container-level operation the
code performs, the outcome the daemon would have produced: the outcome of the
single-run container, whether batch-mode container setup raised, the outcome
of the one-time compile step, and the outcome of each per-test exec.  The
filesystem effect relevant to the claims (the ephemeral workspace directory)
is threaded explicitly as a small state.
-/

set_option autoImplicit false

namespace DockerExec

/-- ASCII whitespace characters recognised by Python str.strip (the engine
only ever strips program output, whose whitespace is ASCII). -/
def isPyWhitespace (c : Char) : Bool :=
  c = ' ' || c = '\t' || c = '\n' || c = '\r' || c = '\x0b' || c = '\x0c'

/-- Python str.strip(): drop leading and trailing whitespace. -/
def pyStrip (s : String) : String :=
  String.mk (((s.data.dropWhile isPyWhitespace).reverse.dropWhile isPyWhitespace).reverse)

/-- Python str.lower() restricted to ASCII (file extensions are ASCII). -/
def pyLower (s : String) : String := String.mk (s.data.map Char.toLower)

/-- Python str.endswith. -/
def pyEndsWith (s suffix : String) : Bool := suffix.data.isSuffixOf s.data

/-- Python str.rfind: index of the last occurrence of a character, -1 when
absent. -/
def pyRfind (c : Char) (l : List Char) : Int :=
  (l.foldl (fun acc ch => (if ch = c then acc.snd else acc.fst, acc.snd + 1))
    ((-1 : Int), (0 : Int))).fst

/-- The extension part of os.path.splitext: the suffix from the last dot of
the basename, provided a non-dot character precedes that dot inside the
basename; empty otherwise. -/
def splitextExt (l : List Char) : List Char :=
  let sep := pyRfind '/' l
  let dot := pyRfind '.' l
  if sep < dot then
    if (List.range l.length).any (fun i =>
        decide (sep < (i : Int)) && decide ((i : Int) < dot) && !(l.getD i '.' == '.'))
    then l.drop dot.toNat
    else []
  else []

/-- os.path.splitext(filepath)[1] as used by _detect_language_from_file. -/
def extOf (p : String) : String := String.mk (splitextExt p.data)

/-- The extension table of DockerExecutor._detect_language_from_file. -/
def ext_lang_map : List (String × String) :=
  [(".py", "python"), (".ts", "typescript"), (".js", "typescript"),
   (".go", "go"), (".java", "java")]

/-- DockerExecutor._detect_language_from_file: map a file path's lowered
extension to a language, if registered in the extension table. -/
def detect_language_from_file (filepath : String) : Option String :=
  List.lookup (pyLower (extOf filepath)) ext_lang_map

/-- One entry of DockerExecutor.LANGUAGE_CONFIG. -/
structure LangConfig where
  image : String
  main_file : String
  setup_command : Option String
  deriving DecidableEq

/-- DockerExecutor.LANGUAGE_CONFIG: the language runtime registry. -/
def LANGUAGE_CONFIG : List (String × LangConfig) :=
  [("python", LangConfig.mk "python:3.12-slim" "main.py" none),
   ("typescript", LangConfig.mk "node:20-slim" "main.ts" (some "npm install -g typescript ts-node")),
   ("go", LangConfig.mk "golang:1.23-alpine" "main.go" none),
   ("java", LangConfig.mk "openjdk:21-jdk-slim" "Main.java" none)]

/-- The fallback extension table of execute_code (used only when no file
extension matched any registered language). -/
def target_ext_map : List (String × String) :=
  [("python", ".py"), ("typescript", ".ts"), ("go", ".go"), ("java", ".java")]

/-- Python exceptions execute_code can raise or propagate. -/
inductive PyError where
  /-- ValueError raised for an unsupported resolved language. -/
  | valueError (msg : String)
  /-- IndexError from taking the first file of an empty file map. -/
  | indexError
  /-- A docker-daemon exception propagated uncaught (batch-mode setup). -/
  | dockerError (msg : String)
  /-- asyncio.TimeoutError propagated uncaught (batch-mode compile step). -/
  | asyncioTimeout
  deriving DecidableEq

/-- Language/main-file resolution of execute_code (its lines 106-146): scan
the files in order for a recognised extension, the first match fixing both
the effective language and the main file; otherwise fall back to the declared
language and look for a file with that language's extension; otherwise take
the first file (IndexError when there is none). -/
def resolveLanguage (language : String) (files : List (String × String)) :
    Except PyError (String × String) :=
  match files.findSome? (fun p => (detect_language_from_file p.fst).map (fun l => (l, p.fst))) with
  | some lp => Except.ok lp
  | none =>
    match files.find? (fun p => pyEndsWith p.fst ((List.lookup language target_ext_map).getD ".py")) with
    | some p => Except.ok (language, p.fst)
    | none =>
      match files with
      | [] => Except.error PyError.indexError
      | p :: _ => Except.ok (language, p.fst)

/-- The effective language a request resolves to. -/
def effectiveLanguage (language : String) (files : List (String × String)) :
    Except PyError String :=
  Except.map Prod.fst (resolveLanguage language files)

/-- A test case of the request (input text, expected output text). -/
structure TestCase where
  input : String
  output : String
  deriving DecidableEq

/-- One element of test_results as accumulated by the batch loop
(duration_ms, pure wall-clock measurement, is not modelled). -/
structure TestResult where
  test_index : Nat
  input : String
  expected_output : String
  actual_output : String
  passed : Bool
  exit_code : Int
  deriving DecidableEq

/-- The response envelope of execute_code (duration_ms not modelled). -/
structure ExecutionResult where
  stdout : String
  stderr : String
  exit_code : Int
  test_results : Option (List TestResult)
  verdict : Option String
  deriving DecidableEq

/-- Outcome the daemon produces for one exec_run inside the shared batch
container (the compile step or one per-test run): a normal completion with
exit code and decoded demuxed streams, or an asyncio.wait_for timeout. -/
inductive ExecOutcome where
  | ok (exit_code : Int) (stdout stderr : String)
  | timeout
  deriving DecidableEq

/-- Outcome of the single-run container's create/populate/start/wait cycle.
createFail is an exception from containers.create (no container exists yet);
setupFail is an exception from put_archive or start (the container exists);
both are caught by the generic except-Exception arm. -/
inductive SingleOutcome where
  | createFail (msg : String)
  | setupFail (msg : String)
  | timeout
  | containerError (exit_status : Int) (stdout stderr : String)
  | ok (exit_code : Int) (stdout stderr : String)
  deriving DecidableEq

/-- Outcome of batch-mode container setup (containers.create, start,
put_archive); failures here raise docker exceptions. -/
inductive BatchSetup where
  | ok
  | createFail (msg : String)
  | startFail (msg : String)
  deriving DecidableEq

/-- The container-runtime oracle for one request: what the daemon would
answer for each operation execute_code performs. -/
structure Oracle where
  single : SingleOutcome
  setup : BatchSetup
  compile : ExecOutcome
  tests : Nat → ExecOutcome

/-- State of the ephemeral workspace directory on the executor's disk. -/
structure FsState where
  workspaceExists : Bool
  deriving DecidableEq

/-- os.makedirs(tmpdir, exist_ok=True). -/
def makedirsWorkspace (_s : FsState) : FsState := FsState.mk true

/-- The cleanup step: if os.path.exists(tmpdir): shutil.rmtree(tmpdir). -/
def rmtreeWorkspace (s : FsState) : FsState :=
  if s.workspaceExists then FsState.mk false else s

/-- The message of the TimeoutError raised on a deadline overrun. -/
def timeoutMsg (t : Int) : String :=
  "Execution timeout after " ++ toString t ++ " seconds"

/-- The (exit code, stdout, stderr) triple the per-test try/except produces
from an exec outcome: the exec result on normal completion, and
(-1, empty, timeout message) when the deadline was exceeded. -/
def execTriple (t : Int) : ExecOutcome → Int × String × String
  | ExecOutcome.ok e out err => (e, out, err)
  | ExecOutcome.timeout => (-1, "", timeoutMsg t)

/-- The body of the batch loop for one test case (lines 299-337): strip the
expected output, run the test, strip actual stdout, compare, and append any
non-blank stderr to the actual output as an inline diagnostic. -/
def processTest (t : Int) (idx : Nat) (tc : TestCase) (outcome : ExecOutcome) : TestResult :=
  let expected := pyStrip tc.output
  let tr := execTriple t outcome
  let t_exit := tr.fst
  let t_out := tr.snd.fst
  let t_err := tr.snd.snd
  let actual := pyStrip t_out
  let passed := decide (t_exit = 0) && decide (actual = expected)
  let actual_with_error :=
    if t_err ≠ "" ∧ pyStrip t_err ≠ "" then
      (if actual ≠ "" then actual ++ "\nОшибка: " ++ pyStrip t_err
       else "Ошибка: " ++ pyStrip t_err)
    else actual
  TestResult.mk (idx + 1) tc.input expected actual_with_error passed t_exit

/-- The batch loop's test_results accumulation, from a starting index. -/
def runTestResultsFrom (t : Int) (o : Nat → ExecOutcome) : Nat → List TestCase → List TestResult
  | _, [] => []
  | idx, tc :: rest => processTest t idx tc (o idx) :: runTestResultsFrom t o (idx + 1) rest

/-- The full test_results list of batch mode. -/
def runTestResults (t : Int) (o : Nat → ExecOutcome) (tcs : List TestCase) : List TestResult :=
  runTestResultsFrom t o 0 tcs

/-- The batch loop's first_error_output accumulation: the stripped stderr of
the earliest test whose stderr was non-blank, starting from acc. -/
def firstErrorFrom (t : Int) (o : Nat → ExecOutcome) : Nat → String → List TestCase → String
  | _, acc, [] => acc
  | idx, acc, _tc :: rest =>
    let t_err := (execTriple t (o idx)).snd.snd
    let acc' := if (t_err ≠ "" ∧ pyStrip t_err ≠ "") ∧ acc = "" then pyStrip t_err else acc
    firstErrorFrom t o (idx + 1) acc' rest

/-- first_error_output after the whole batch loop. -/
def firstErrorOutput (t : Int) (o : Nat → ExecOutcome) (tcs : List TestCase) : String :=
  firstErrorFrom t o 0 "" tcs

/-- Python sep.join. -/
def pyJoin (sep : String) : List String → String
  | [] => ""
  | [x] => x
  | x :: rest => x ++ sep ++ pyJoin sep rest

/-- The human-readable transcript built as request-level stdout in batch
mode (lines 344-351). -/
def transcript (verdict : String) (passed_count total_count : Nat)
    (results : List TestResult) : String :=
  let lines :=
    ["Вердикт: " ++ verdict,
     "Пройдено тестов: " ++ toString passed_count ++ "/" ++ toString total_count, ""]
    ++ results.map (fun tr =>
        (if tr.passed then "✅" else "❌") ++ " Тест " ++ toString tr.test_index ++ ": "
          ++ tr.actual_output ++ " (ожидалось: " ++ tr.expected_output ++ ")")
  pyJoin "\n" lines

/-- The ExecutionResult assembled after the batch loop finishes normally
(lines 329-354 and the final return): verdict, transcript stdout, the
first captured stderr only for failing suites, and the request-level exit
code. -/
def mkBatchResult (t : Int) (o : Nat → ExecOutcome) (tcs : List TestCase) : ExecutionResult :=
  let results := runTestResults t o tcs
  let passed_count := results.countP (fun tr => tr.passed)
  let total_count := results.length
  let verdict := if passed_count = total_count then "ACCEPTED" else "WRONG ANSWER"
  let first_error := firstErrorOutput t o tcs
  ExecutionResult.mk
    (transcript verdict passed_count total_count results)
    (if ¬(passed_count = total_count) ∧ first_error ≠ "" then first_error else "")
    (if passed_count = total_count then 0 else 1)
    (some results)
    (some verdict)

/-- Single-run mode (lines 180-241): the response fields and the number of
containers created, for each possible daemon outcome.  On normal completion
stderr is surfaced only for a non-zero exit with a non-blank stream. -/
def runSingleMode (t : Int) (out : SingleOutcome) : ExecutionResult × Nat :=
  match out with
  | SingleOutcome.createFail msg =>
    (ExecutionResult.mk "" ("Docker error: " ++ msg) (-1) none none, 0)
  | SingleOutcome.setupFail msg =>
    (ExecutionResult.mk "" ("Docker error: " ++ msg) (-1) none none, 1)
  | SingleOutcome.timeout =>
    (ExecutionResult.mk "" (timeoutMsg t) (-1) none none, 1)
  | SingleOutcome.containerError es sout serr =>
    (ExecutionResult.mk sout serr es none none, 1)
  | SingleOutcome.ok ec sout serrRaw =>
    (ExecutionResult.mk sout
      (if ec ≠ 0 ∧ pyStrip serrRaw ≠ "" then serrRaw else "") ec none none, 1)

/-- Whether the resolved language has a one-time build/compile step in batch
mode (the if/elif chain of lines 274-297; everything else is python). -/
def needsCompile (language : String) : Bool :=
  language == "typescript" || language == "java" || language == "go"

/-- Batch test-suite mode (lines 245-360): setup failures propagate as
exceptions (the inner try has only a finally), a compile-step deadline
overrun propagates as asyncio.TimeoutError, the compile result itself is
discarded, and otherwise the loop runs every test and assembles the
result. -/
def runBatch (language : String) (t : Int) (tcs : List TestCase)
    (setup : BatchSetup) (compile : ExecOutcome) (o : Nat → ExecOutcome) :
    Except PyError ExecutionResult × Nat :=
  match setup with
  | BatchSetup.createFail msg => (Except.error (PyError.dockerError msg), 0)
  | BatchSetup.startFail msg => (Except.error (PyError.dockerError msg), 1)
  | BatchSetup.ok =>
    if needsCompile language = true ∧ compile = ExecOutcome.timeout then
      (Except.error PyError.asyncioTimeout, 1)
    else
      (Except.ok (mkBatchResult t o tcs), 1)

/-- The try-block of execute_code (lines 95-372): resolve the language and
main file, fail fast on an unregistered language, then dispatch on the
presence of test cases.  Returns the result (or the propagated exception)
and the number of containers created. -/
def executeBody (language : String) (files : List (String × String)) (t : Int)
    (tcs : List TestCase) (o : Oracle) : Except PyError ExecutionResult × Nat :=
  match resolveLanguage language files with
  | Except.error e => (Except.error e, 0)
  | Except.ok res =>
    if (List.lookup res.fst LANGUAGE_CONFIG).isSome then
      match tcs with
      | [] =>
        let sr := runSingleMode t o.single
        (Except.ok sr.fst, sr.snd)
      | tc :: rest => runBatch res.fst t (tc :: rest) o.setup o.compile o.tests
    else
      (Except.error (PyError.valueError ("Unsupported language: " ++ res.fst)), 0)

instance {ε α : Type} [DecidableEq ε] [DecidableEq α] : DecidableEq (Except ε α) := fun a b =>
  match a, b with
  | Except.error x, Except.error y =>
    if h : x = y then isTrue (by rw [h]) else isFalse (fun hc => h (Except.error.inj hc))
  | Except.error _, Except.ok _ => isFalse (fun hc => Except.noConfusion hc)
  | Except.ok _, Except.error _ => isFalse (fun hc => Except.noConfusion hc)
  | Except.ok x, Except.ok y =>
    if h : x = y then isTrue (by rw [h]) else isFalse (fun hc => h (Except.ok.inj hc))

/-- What a call to execute_code leaves behind: the returned value or the
exception that escaped, how many containers were created, and the final
workspace state. -/
structure ExecOutput where
  result : Except PyError ExecutionResult
  containersCreated : Nat
  fs : FsState
  deriving DecidableEq

/-- DockerExecutor.execute_code: create the workspace, run the try-block,
and unconditionally remove the workspace in the finally (both when the body
returns and when it raises). -/
def execute_code (language : String) (files : List (String × String)) (t : Int)
    (tcs : List TestCase) (o : Oracle) (fs : FsState) : ExecOutput :=
  let fs1 := makedirsWorkspace fs
  let body := executeBody language files t tcs o
  ExecOutput.mk body.fst body.snd (rmtreeWorkspace fs1)

theorem execute_code_result (language : String) (files : List (String × String)) (t : Int)
    (tcs : List TestCase) (o : Oracle) (fs : FsState) :
    (execute_code language files t tcs o fs).result = (executeBody language files t tcs o).fst :=
  rfl

theorem execute_code_created (language : String) (files : List (String × String)) (t : Int)
    (tcs : List TestCase) (o : Oracle) (fs : FsState) :
    (execute_code language files t tcs o fs).containersCreated
      = (executeBody language files t tcs o).snd :=
  rfl

theorem ne_empty_of_pyStrip_ne_empty {s : String} (h : pyStrip s ≠ "") : s ≠ "" := by
  intro hs
  rw [hs] at h
  exact h rfl

theorem pyStrip_eq_self (s : String) (c1 c2 : Char)
    (h1 : s.data.head? = some c1) (hc1 : isPyWhitespace c1 = false)
    (h2 : s.data.getLast? = some c2) (hc2 : isPyWhitespace c2 = false) :
    pyStrip s = s := by
  have hdrop1 : s.data.dropWhile isPyWhitespace = s.data := by
    cases hd : s.data with
    | nil => simp
    | cons a tl =>
      have ha : a = c1 := by rw [hd] at h1; simpa using h1
      rw [List.dropWhile_cons]
      simp [ha, hc1]
  have h2' : s.data.reverse.head? = some c2 := by rw [List.head?_reverse]; exact h2
  have hdrop2 : s.data.reverse.dropWhile isPyWhitespace = s.data.reverse := by
    cases hr : s.data.reverse with
    | nil => simp
    | cons a tl =>
      have ha : a = c2 := by rw [hr] at h2'; simpa using h2'
      rw [List.dropWhile_cons]
      simp [ha, hc2]
  rw [pyStrip, hdrop1, hdrop2, List.reverse_reverse]

theorem timeoutMsg_head? (t : Int) : (timeoutMsg t).data.head? = some 'E' := by
  unfold timeoutMsg
  rw [String.data_append, String.data_append]
  simp only [List.head?_append]
  have h : ("Execution timeout after ").data.head? = some 'E' := by decide
  rw [h]
  rfl

theorem timeoutMsg_getLast? (t : Int) : (timeoutMsg t).data.getLast? = some 's' := by
  unfold timeoutMsg
  rw [String.data_append, String.data_append]
  simp only [List.getLast?_append]
  have h : (" seconds").data.getLast? = some 's' := by decide
  rw [h]
  rfl

theorem pyStrip_timeoutMsg (t : Int) : pyStrip (timeoutMsg t) = timeoutMsg t :=
  pyStrip_eq_self (timeoutMsg t) 'E' 's' (timeoutMsg_head? t) (by decide)
    (timeoutMsg_getLast? t) (by decide)

theorem timeoutMsg_ne_empty (t : Int) : timeoutMsg t ≠ "" := by
  intro h
  have hh := timeoutMsg_head? t
  rw [h] at hh
  simp at hh

theorem runTestResultsFrom_length (t : Int) (o : Nat → ExecOutcome) :
    ∀ (tcs : List TestCase) (k : Nat), (runTestResultsFrom t o k tcs).length = tcs.length
  | [], _ => rfl
  | _tc :: rest, k => by
    simp [runTestResultsFrom, runTestResultsFrom_length t o rest (k + 1)]

theorem runTestResultsFrom_getD (t : Int) (o : Nat → ExecOutcome) :
    ∀ (tcs : List TestCase) (k i : Nat) (d : TestResult) (dtc : TestCase), i < tcs.length →
      (runTestResultsFrom t o k tcs).getD i d
        = processTest t (k + i) (tcs.getD i dtc) (o (k + i))
  | [], _, i, _, _, h => absurd h (by simp)
  | tc :: rest, k, 0, d, dtc, _ => by simp [runTestResultsFrom]
  | tc :: rest, k, i + 1, d, dtc, h => by
    have h' : i < rest.length := by
      have := h
      simp only [List.length_cons] at this
      omega
    have ih := runTestResultsFrom_getD t o rest (k + 1) i d dtc h'
    simp only [runTestResultsFrom, List.getD_cons_succ]
    have e : k + 1 + i = k + (i + 1) := by omega
    rw [e] at ih
    exact ih

theorem runTestResults_length (t : Int) (o : Nat → ExecOutcome) (tcs : List TestCase) :
    (runTestResults t o tcs).length = tcs.length :=
  runTestResultsFrom_length t o tcs 0

theorem runTestResults_getD (t : Int) (o : Nat → ExecOutcome) (tcs : List TestCase)
    (i : Nat) (d : TestResult) (dtc : TestCase) (h : i < tcs.length) :
    (runTestResults t o tcs).getD i d = processTest t i (tcs.getD i dtc) (o i) := by
  have := runTestResultsFrom_getD t o tcs 0 i d dtc h
  simpa using this

theorem executeBody_batch_ok (language : String) (files : List (String × String)) (t : Int)
    (tc0 : TestCase) (rest : List TestCase) (o : Oracle) (r : ExecutionResult)
    (h : (executeBody language files t (tc0 :: rest) o).fst = Except.ok r) :
    r = mkBatchResult t o.tests (tc0 :: rest) := by
  unfold executeBody at h
  split at h
  · simp at h
  · split at h
    · split at h
      · rename_i heq0
        exact absurd heq0 (by simp)
      · rename_i tc1 rest1 heq1
        rw [heq1]
        unfold runBatch at h
        split at h
        · simp at h
        · simp at h
        · split at h
          · simp at h
          · simp only [Except.ok.injEq] at h
            exact h.symm
    · simp at h

theorem executeBody_single_ok (language : String) (files : List (String × String)) (t : Int)
    (o : Oracle) (r : ExecutionResult)
    (h : (executeBody language files t [] o).fst = Except.ok r) :
    r = (runSingleMode t o.single).fst := by
  unfold executeBody at h
  split at h
  · simp at h
  · split at h
    · split at h
      · simp only [Except.ok.injEq] at h
        exact h.symm
      · rename_i tc1 rest1 heq1
        exact absurd heq1 (by simp)
    · simp at h

end DockerExec

namespace DockerExec

theorem mkBatchResult_test_results (t : Int) (o : Nat → ExecOutcome) (tcs : List TestCase) :
    (mkBatchResult t o tcs).test_results = some (runTestResults t o tcs) := rfl

theorem mkBatchResult_verdict (t : Int) (o : Nat → ExecOutcome) (tcs : List TestCase) :
    (mkBatchResult t o tcs).verdict
      = some (if (runTestResults t o tcs).countP (fun tr => tr.passed)
                 = (runTestResults t o tcs).length
              then "ACCEPTED" else "WRONG ANSWER") := rfl

theorem mkBatchResult_exit_code (t : Int) (o : Nat → ExecOutcome) (tcs : List TestCase) :
    (mkBatchResult t o tcs).exit_code
      = (if (runTestResults t o tcs).countP (fun tr => tr.passed)
            = (runTestResults t o tcs).length
         then 0 else 1) := rfl

theorem mkBatchResult_stderr (t : Int) (o : Nat → ExecOutcome) (tcs : List TestCase) :
    (mkBatchResult t o tcs).stderr
      = (if ¬((runTestResults t o tcs).countP (fun tr => tr.passed)
              = (runTestResults t o tcs).length)
            ∧ firstErrorOutput t o tcs ≠ ""
         then firstErrorOutput t o tcs else "") := rfl

theorem cons_of_ne_nil {α : Type} {l : List α} (h : l ≠ []) :
    ∃ a tl, l = a :: tl := by
  cases l with
  | nil => exact absurd rfl h
  | cons a tl => exact ⟨a, tl, rfl⟩

/-- C5: for every request and every outcome the container runtime produces
(success, unsupported-language failure, or a propagated exception), the
ephemeral workspace directory created for the request does not exist after
execute_code finishes. -/
theorem C5_workspace_removed (language : String) (files : List (String × String)) (t : Int)
    (tcs : List TestCase) (o : Oracle) (fs : FsState) :
    (execute_code language files t tcs o fs).fs.workspaceExists = false := by
  unfold execute_code
  simp [makedirsWorkspace, rmtreeWorkspace]

/-- C1: in batch test-suite mode (non-empty test_cases), when execute_code
returns normally its verdict is ACCEPTED iff every element of test_results
has passed = true, and otherwise the verdict is WRONG ANSWER. -/
theorem C1_verdict_accepted_iff_all_passed (language : String)
    (files : List (String × String)) (t : Int) (tcs : List TestCase) (o : Oracle)
    (fs : FsState) (r : ExecutionResult) (trs : List TestResult)
    (htcs : tcs ≠ [])
    (hok : (execute_code language files t tcs o fs).result = Except.ok r)
    (htrs : r.test_results = some trs) :
    (r.verdict = some "ACCEPTED" ↔ trs.all (fun tr => tr.passed) = true) ∧
    (r.verdict = some "ACCEPTED" ∨ r.verdict = some "WRONG ANSWER") := by
  rw [execute_code_result] at hok
  obtain ⟨tc0, rest, rfl⟩ := cons_of_ne_nil htcs
  have hr := executeBody_batch_ok language files t tc0 rest o r hok
  subst hr
  rw [mkBatchResult_test_results] at htrs
  have htrs' : trs = runTestResults t o.tests (tc0 :: rest) := by
    simpa using htrs.symm
  subst htrs'
  rw [mkBatchResult_verdict]
  by_cases hc : (runTestResults t o.tests (tc0 :: rest)).countP (fun tr => tr.passed)
      = (runTestResults t o.tests (tc0 :: rest)).length
  · rw [if_pos hc]
    constructor
    · constructor
      · intro _
        rw [List.all_eq_true]
        intro x hx
        exact List.countP_eq_length.mp hc x hx
      · intro _
        rfl
    · left
      rfl
  · rw [if_neg hc]
    constructor
    · constructor
      · intro hv
        exact absurd (Option.some.inj hv) (by decide)
      · intro hall
        exact absurd (List.countP_eq_length.mpr (List.all_eq_true.mp hall)) hc
    · right
      rfl

/-- Witness for C1: a one-test accepted run. -/
theorem C1_witness :
    ((mkBatchResult 30 (fun _ => ExecOutcome.ok 0 "42\n" "") [TestCase.mk "" "42"]).verdict
        = some "ACCEPTED"
      ↔ (runTestResults 30 (fun _ => ExecOutcome.ok 0 "42\n" "") [TestCase.mk "" "42"]).all
          (fun tr => tr.passed) = true) ∧
    ((mkBatchResult 30 (fun _ => ExecOutcome.ok 0 "42\n" "") [TestCase.mk "" "42"]).verdict
        = some "ACCEPTED"
      ∨ (mkBatchResult 30 (fun _ => ExecOutcome.ok 0 "42\n" "") [TestCase.mk "" "42"]).verdict
        = some "WRONG ANSWER") :=
  C1_verdict_accepted_iff_all_passed "python" [("main.py", "x")] 30 [TestCase.mk "" "42"]
    (Oracle.mk (SingleOutcome.ok 0 "" "") BatchSetup.ok (ExecOutcome.ok 0 "" "")
      (fun _ => ExecOutcome.ok 0 "42\n" ""))
    (FsState.mk false)
    (mkBatchResult 30 (fun _ => ExecOutcome.ok 0 "42\n" "") [TestCase.mk "" "42"])
    (runTestResults 30 (fun _ => ExecOutcome.ok 0 "42\n" "") [TestCase.mk "" "42"])
    (by decide) rfl rfl

/-- C7: in batch test-suite mode, the request-level exit code is 0 iff the
verdict is ACCEPTED, and 1 otherwise. -/
theorem C7_exit_code_matches_verdict (language : String)
    (files : List (String × String)) (t : Int) (tcs : List TestCase) (o : Oracle)
    (fs : FsState) (r : ExecutionResult)
    (htcs : tcs ≠ [])
    (hok : (execute_code language files t tcs o fs).result = Except.ok r) :
    (r.exit_code = 0 ↔ r.verdict = some "ACCEPTED") ∧
    (r.verdict ≠ some "ACCEPTED" → r.exit_code = 1) := by
  rw [execute_code_result] at hok
  obtain ⟨tc0, rest, rfl⟩ := cons_of_ne_nil htcs
  have hr := executeBody_batch_ok language files t tc0 rest o r hok
  subst hr
  rw [mkBatchResult_verdict, mkBatchResult_exit_code]
  by_cases hc : (runTestResults t o.tests (tc0 :: rest)).countP (fun tr => tr.passed)
      = (runTestResults t o.tests (tc0 :: rest)).length
  · rw [if_pos hc, if_pos hc]
    exact ⟨⟨fun _ => rfl, fun _ => rfl⟩, fun hne => absurd rfl hne⟩
  · rw [if_neg hc, if_neg hc]
    constructor
    · constructor
      · intro h01
        exact absurd h01 (by decide)
      · intro hv
        exact absurd (Option.some.inj hv) (by decide)
    · intro _
      rfl

/-- Witness for C7: a one-test wrong-answer run has exit code 1. -/
theorem C7_witness :
    ((mkBatchResult 30 (fun _ => ExecOutcome.ok 0 "7\n" "") [TestCase.mk "" "42"]).exit_code = 0
      ↔ (mkBatchResult 30 (fun _ => ExecOutcome.ok 0 "7\n" "") [TestCase.mk "" "42"]).verdict
          = some "ACCEPTED") ∧
    ((mkBatchResult 30 (fun _ => ExecOutcome.ok 0 "7\n" "") [TestCase.mk "" "42"]).verdict
        ≠ some "ACCEPTED"
      → (mkBatchResult 30 (fun _ => ExecOutcome.ok 0 "7\n" "") [TestCase.mk "" "42"]).exit_code
          = 1) :=
  C7_exit_code_matches_verdict "python" [("main.py", "x")] 30 [TestCase.mk "" "42"]
    (Oracle.mk (SingleOutcome.ok 0 "" "") BatchSetup.ok (ExecOutcome.ok 0 "" "")
      (fun _ => ExecOutcome.ok 0 "7\n" ""))
    (FsState.mk false)
    (mkBatchResult 30 (fun _ => ExecOutcome.ok 0 "7\n" "") [TestCase.mk "" "42"])
    (by decide) rfl

end DockerExec

namespace DockerExec

theorem processTest_ok_passed (t : Int) (idx : Nat) (tc : TestCase) (e : Int)
    (sout serr : String) :
    (processTest t idx tc (ExecOutcome.ok e sout serr)).passed
      = (decide (e = 0) && decide (pyStrip sout = pyStrip tc.output)) := rfl

theorem processTest_ok_exit_code (t : Int) (idx : Nat) (tc : TestCase) (e : Int)
    (sout serr : String) :
    (processTest t idx tc (ExecOutcome.ok e sout serr)).exit_code = e := rfl

theorem processTest_timeout (t : Int) (idx : Nat) (tc : TestCase) :
    processTest t idx tc ExecOutcome.timeout
      = TestResult.mk (idx + 1) tc.input (pyStrip tc.output)
          ("Ошибка: " ++ timeoutMsg t) false (-1) := by
  have hne : timeoutMsg t ≠ "" := timeoutMsg_ne_empty t
  have hst : pyStrip (timeoutMsg t) = timeoutMsg t := pyStrip_timeoutMsg t
  have hm1 : decide ((-1 : Int) = 0) = false := by decide
  have hps : pyStrip "" = "" := rfl
  unfold processTest execTriple
  simp [hne, hst, hm1, hps]

/-- C2: in batch test-suite mode, for every test case i that completes
normally, test_results[i].passed is true iff its exit code is 0 and the
stripped stdout equals the stripped expected output. -/
theorem C2_passed_iff_exit_zero_and_output_matches (language : String)
    (files : List (String × String)) (t : Int) (tcs : List TestCase) (o : Oracle)
    (fs : FsState) (r : ExecutionResult) (trs : List TestResult) (i : Nat) (e : Int)
    (sout serr : String) (d : TestResult) (dtc : TestCase)
    (htcs : tcs ≠ [])
    (hok : (execute_code language files t tcs o fs).result = Except.ok r)
    (htrs : r.test_results = some trs)
    (hi : i < tcs.length)
    (ho : o.tests i = ExecOutcome.ok e sout serr) :
    ((trs.getD i d).passed = true
      ↔ (e = 0 ∧ pyStrip sout = pyStrip (tcs.getD i dtc).output)) ∧
    (trs.getD i d).exit_code = e := by
  rw [execute_code_result] at hok
  obtain ⟨tc0, rest, rfl⟩ := cons_of_ne_nil htcs
  have hr := executeBody_batch_ok language files t tc0 rest o r hok
  subst hr
  rw [mkBatchResult_test_results] at htrs
  have htrs' : trs = runTestResults t o.tests (tc0 :: rest) := by simpa using htrs.symm
  subst htrs'
  rw [runTestResults_getD t o.tests (tc0 :: rest) i d dtc hi, ho]
  constructor
  · rw [processTest_ok_passed]
    simp [Bool.and_eq_true, decide_eq_true_eq]
  · rw [processTest_ok_exit_code]

/-- Witness for C2: a passing test with exit code 0 and matching output. -/
theorem C2_witness :
    (((runTestResults 30 (fun _ => ExecOutcome.ok 0 "42\n" "") [TestCase.mk "" "42"]).getD 0
          (TestResult.mk 0 "" "" "" false 0)).passed = true
      ↔ ((0 : Int) = 0
          ∧ pyStrip "42\n" = pyStrip (([TestCase.mk "" "42"].getD 0 (TestCase.mk "" "")).output))) ∧
    ((runTestResults 30 (fun _ => ExecOutcome.ok 0 "42\n" "") [TestCase.mk "" "42"]).getD 0
        (TestResult.mk 0 "" "" "" false 0)).exit_code = 0 :=
  C2_passed_iff_exit_zero_and_output_matches "python" [("main.py", "x")] 30
    [TestCase.mk "" "42"]
    (Oracle.mk (SingleOutcome.ok 0 "" "") BatchSetup.ok (ExecOutcome.ok 0 "" "")
      (fun _ => ExecOutcome.ok 0 "42\n" ""))
    (FsState.mk false)
    (mkBatchResult 30 (fun _ => ExecOutcome.ok 0 "42\n" "") [TestCase.mk "" "42"])
    (runTestResults 30 (fun _ => ExecOutcome.ok 0 "42\n" "") [TestCase.mk "" "42"])
    0 0 "42\n" "" (TestResult.mk 0 "" "" "" false 0) (TestCase.mk "" "")
    (by decide) rfl rfl (by decide) rfl

/-- C4: in batch test-suite mode, a per-test deadline overrun at test i is
recorded as exit_code -1, passed false, with the inline timeout note as the
actual output, and every test is still reported — in particular a later
test j still carries its own exec outcome. -/
theorem C4_timeout_recorded_and_suite_continues (language : String)
    (files : List (String × String)) (t : Int) (tcs : List TestCase) (o : Oracle)
    (fs : FsState) (r : ExecutionResult) (trs : List TestResult) (i j : Nat) (e : Int)
    (sout serr : String) (d : TestResult)
    (htcs : tcs ≠ [])
    (hok : (execute_code language files t tcs o fs).result = Except.ok r)
    (htrs : r.test_results = some trs)
    (hi : i < tcs.length)
    (hto : o.tests i = ExecOutcome.timeout)
    (_hij : i < j)
    (hj : j < tcs.length)
    (hoj : o.tests j = ExecOutcome.ok e sout serr) :
    (trs.getD i d).exit_code = -1 ∧
    (trs.getD i d).passed = false ∧
    (trs.getD i d).actual_output = "Ошибка: " ++ timeoutMsg t ∧
    trs.length = tcs.length ∧
    (trs.getD j d).exit_code = e := by
  rw [execute_code_result] at hok
  obtain ⟨tc0, rest, rfl⟩ := cons_of_ne_nil htcs
  have hr := executeBody_batch_ok language files t tc0 rest o r hok
  subst hr
  rw [mkBatchResult_test_results] at htrs
  have htrs' : trs = runTestResults t o.tests (tc0 :: rest) := by simpa using htrs.symm
  subst htrs'
  refine ⟨?_, ?_, ?_, ?_, ?_⟩
  · rw [runTestResults_getD t o.tests (tc0 :: rest) i d (TestCase.mk "" "") hi, hto,
      processTest_timeout]
  · rw [runTestResults_getD t o.tests (tc0 :: rest) i d (TestCase.mk "" "") hi, hto,
      processTest_timeout]
  · rw [runTestResults_getD t o.tests (tc0 :: rest) i d (TestCase.mk "" "") hi, hto,
      processTest_timeout]
  · rw [runTestResults_length]
  · rw [runTestResults_getD t o.tests (tc0 :: rest) j d (TestCase.mk "" "") hj, hoj,
      processTest_ok_exit_code]

/-- Witness for C4: test 0 times out, test 1 still runs and is reported. -/
theorem C4_witness :
    (((runTestResults 30
          (fun idx => if idx = 0 then ExecOutcome.timeout else ExecOutcome.ok 7 "1\n" "")
          [TestCase.mk "" "1", TestCase.mk "" "2"]).getD 0
        (TestResult.mk 0 "" "" "" false 0)).exit_code = -1) ∧
    (((runTestResults 30
          (fun idx => if idx = 0 then ExecOutcome.timeout else ExecOutcome.ok 7 "1\n" "")
          [TestCase.mk "" "1", TestCase.mk "" "2"]).getD 0
        (TestResult.mk 0 "" "" "" false 0)).passed = false) ∧
    (((runTestResults 30
          (fun idx => if idx = 0 then ExecOutcome.timeout else ExecOutcome.ok 7 "1\n" "")
          [TestCase.mk "" "1", TestCase.mk "" "2"]).getD 0
        (TestResult.mk 0 "" "" "" false 0)).actual_output = "Ошибка: " ++ timeoutMsg 30) ∧
    ((runTestResults 30
          (fun idx => if idx = 0 then ExecOutcome.timeout else ExecOutcome.ok 7 "1\n" "")
          [TestCase.mk "" "1", TestCase.mk "" "2"]).length
      = [TestCase.mk "" "1", TestCase.mk "" "2"].length) ∧
    (((runTestResults 30
          (fun idx => if idx = 0 then ExecOutcome.timeout else ExecOutcome.ok 7 "1\n" "")
          [TestCase.mk "" "1", TestCase.mk "" "2"]).getD 1
        (TestResult.mk 0 "" "" "" false 0)).exit_code = 7) :=
  C4_timeout_recorded_and_suite_continues "python" [("main.py", "x")] 30
    [TestCase.mk "" "1", TestCase.mk "" "2"]
    (Oracle.mk (SingleOutcome.ok 0 "" "") BatchSetup.ok (ExecOutcome.ok 0 "" "")
      (fun idx => if idx = 0 then ExecOutcome.timeout else ExecOutcome.ok 7 "1\n" ""))
    (FsState.mk false)
    (mkBatchResult 30
      (fun idx => if idx = 0 then ExecOutcome.timeout else ExecOutcome.ok 7 "1\n" "")
      [TestCase.mk "" "1", TestCase.mk "" "2"])
    (runTestResults 30
      (fun idx => if idx = 0 then ExecOutcome.timeout else ExecOutcome.ok 7 "1\n" "")
      [TestCase.mk "" "1", TestCase.mk "" "2"])
    0 1 7 "1\n" "" (TestResult.mk 0 "" "" "" false 0)
    (by decide) rfl rfl (by decide) rfl (by decide) (by decide) rfl

end DockerExec

namespace DockerExec

theorem executeBody_unsupported (language : String) (files : List (String × String))
    (t : Int) (tcs : List TestCase) (o : Oracle) (res : String × String)
    (hres : resolveLanguage language files = Except.ok res)
    (hunsup : List.lookup res.fst LANGUAGE_CONFIG = none) :
    executeBody language files t tcs o
      = (Except.error (PyError.valueError ("Unsupported language: " ++ res.fst)), 0) := by
  have hb : (List.lookup res.fst LANGUAGE_CONFIG).isSome = false := by
    rw [hunsup]
    rfl
  unfold executeBody
  rw [hres]
  simp [hb]

theorem executeBody_single_eq (language : String) (files : List (String × String))
    (t : Int) (o : Oracle) (res : String × String)
    (hres : resolveLanguage language files = Except.ok res)
    (hsup : (List.lookup res.fst LANGUAGE_CONFIG).isSome = true) :
    executeBody language files t [] o
      = (Except.ok (runSingleMode t o.single).fst, (runSingleMode t o.single).snd) := by
  unfold executeBody
  rw [hres]
  simp [hsup]

theorem executeBody_batch_eq (language : String) (files : List (String × String))
    (t : Int) (tc0 : TestCase) (rest : List TestCase) (o : Oracle) (res : String × String)
    (hres : resolveLanguage language files = Except.ok res)
    (hsup : (List.lookup res.fst LANGUAGE_CONFIG).isSome = true) :
    executeBody language files t (tc0 :: rest) o
      = runBatch res.fst t (tc0 :: rest) o.setup o.compile o.tests := by
  unfold executeBody
  rw [hres]
  simp [hsup]

/-- C3: effective-language resolution is deterministic.  Scanning is
in order: files before the first detectable one contribute nothing and the
first detectable file fixes the language, overriding the declared one; when
no extension matches, the declared language is used; when the resolved
language is not registered, execute_code fails with the unsupported-language
ValueError and zero containers are created; and concretely a main.go file
with declared language python resolves to go. -/
theorem C3_language_resolution (language c : String) (pre post files : List (String × String))
    (l fp : String) (t : Int) (tcs : List TestCase) (o : Oracle) (fs : FsState) :
    ((∀ p ∈ pre, detect_language_from_file p.fst = none) →
      detect_language_from_file fp = some l →
      effectiveLanguage language (pre ++ (fp, c) :: post) = Except.ok l) ∧
    ((∀ p ∈ files, detect_language_from_file p.fst = none) → files ≠ [] →
      effectiveLanguage language files = Except.ok language) ∧
    (∀ l2 : String, effectiveLanguage language files = Except.ok l2 →
      List.lookup l2 LANGUAGE_CONFIG = none →
      (execute_code language files t tcs o fs).result
          = Except.error (PyError.valueError ("Unsupported language: " ++ l2)) ∧
      (execute_code language files t tcs o fs).containersCreated = 0) ∧
    effectiveLanguage "python" [("main.go", c)] = Except.ok "go" := by
  refine ⟨?_, ?_, ?_, rfl⟩
  · intro hpre hdet
    have hnone : pre.findSome?
        (fun p => (detect_language_from_file p.fst).map (fun l0 => (l0, p.fst))) = none := by
      rw [List.findSome?_eq_none_iff]
      intro x hx
      rw [hpre x hx]
      rfl
    have hfind : (pre ++ (fp, c) :: post).findSome?
        (fun p => (detect_language_from_file p.fst).map (fun l0 => (l0, p.fst)))
        = some (l, fp) := by
      rw [List.findSome?_append, hnone]
      simp [hdet]
    unfold effectiveLanguage resolveLanguage
    rw [hfind]
    rfl
  · intro hall hne
    have hnone : files.findSome?
        (fun p => (detect_language_from_file p.fst).map (fun l0 => (l0, p.fst))) = none := by
      rw [List.findSome?_eq_none_iff]
      intro x hx
      rw [hall x hx]
      rfl
    unfold effectiveLanguage resolveLanguage
    rw [hnone]
    cases hfind : files.find?
        (fun p => pyEndsWith p.fst ((List.lookup language target_ext_map).getD ".py")) with
    | some p => rfl
    | none =>
      cases files with
      | nil => exact absurd rfl hne
      | cons p ps => rfl
  · intro l2 heff hunsup
    cases hres : resolveLanguage language files with
    | error e =>
      rw [effectiveLanguage, hres] at heff
      exact absurd heff (by simp [Except.map])
    | ok res =>
      have hfst : res.fst = l2 := by
        rw [effectiveLanguage, hres] at heff
        simpa [Except.map] using heff
      have hun : List.lookup res.fst LANGUAGE_CONFIG = none := by rw [hfst]; exact hunsup
      have hbody := executeBody_unsupported language files t tcs o res hres hun
      rw [execute_code_result, execute_code_created, hbody, hfst]
      exact ⟨rfl, rfl⟩

/-- Witness for C3: a scan past an undetectable README lands on main.go; an
all-undetectable file set keeps the declared language; declared ruby with no
matching extension fails with the unsupported-language error and zero
containers; main.go with declared python resolves to go. -/
theorem C3_witness :
    effectiveLanguage "ruby" ([("README.md", "")] ++ ("main.go", "x") :: []) = Except.ok "go" ∧
    effectiveLanguage "ruby" [("notes.txt", "")] = Except.ok "ruby" ∧
    ((execute_code "ruby" [("notes.txt", "")] 30 [] 
        (Oracle.mk (SingleOutcome.ok 0 "" "") BatchSetup.ok (ExecOutcome.ok 0 "" "")
          (fun _ => ExecOutcome.ok 0 "" ""))
        (FsState.mk false)).result
        = Except.error (PyError.valueError ("Unsupported language: " ++ "ruby")) ∧
      (execute_code "ruby" [("notes.txt", "")] 30 []
        (Oracle.mk (SingleOutcome.ok 0 "" "") BatchSetup.ok (ExecOutcome.ok 0 "" "")
          (fun _ => ExecOutcome.ok 0 "" ""))
        (FsState.mk false)).containersCreated = 0) ∧
    effectiveLanguage "python" [("main.go", "x")] = Except.ok "go" := by
  refine ⟨?_, ?_, ?_, ?_⟩
  · exact (C3_language_resolution "ruby" "x" [("README.md", "")] [] [] "go" "main.go" 30 []
      (Oracle.mk (SingleOutcome.ok 0 "" "") BatchSetup.ok (ExecOutcome.ok 0 "" "")
        (fun _ => ExecOutcome.ok 0 "" "")) (FsState.mk false)).1 (by decide) (by decide)
  · exact (C3_language_resolution "ruby" "" [] [] [("notes.txt", "")] "" "" 30 []
      (Oracle.mk (SingleOutcome.ok 0 "" "") BatchSetup.ok (ExecOutcome.ok 0 "" "")
        (fun _ => ExecOutcome.ok 0 "" "")) (FsState.mk false)).2.1 (by decide) (by decide)
  · exact (C3_language_resolution "ruby" "" [] [] [("notes.txt", "")] "" "" 30 []
      (Oracle.mk (SingleOutcome.ok 0 "" "") BatchSetup.ok (ExecOutcome.ok 0 "" "")
        (fun _ => ExecOutcome.ok 0 "" "")) (FsState.mk false)).2.2.1 "ruby" rfl (by decide)
  · exact (C3_language_resolution "python" "x" [] [] [] "" "" 30 []
      (Oracle.mk (SingleOutcome.ok 0 "" "") BatchSetup.ok (ExecOutcome.ok 0 "" "")
        (fun _ => ExecOutcome.ok 0 "" "")) (FsState.mk false)).2.2.2

/-- C8: in single-run mode, on normal container completion, stderr is
surfaced exactly when the exit code is non-zero and the captured stream is
non-blank; on a zero exit code or a blank stream the returned stderr is
empty. -/
theorem C8_single_run_stderr_suppressed_on_success (language : String)
    (files : List (String × String)) (t : Int) (o : Oracle) (fs : FsState)
    (r : ExecutionResult) (ec : Int) (sout serr : String)
    (hok : (execute_code language files t [] o fs).result = Except.ok r)
    (ho : o.single = SingleOutcome.ok ec sout serr) :
    (ec ≠ 0 ∧ pyStrip serr ≠ "" → r.stderr = serr) ∧
    (ec = 0 ∨ pyStrip serr = "" → r.stderr = "") ∧
    (r.stderr ≠ "" → ec ≠ 0 ∧ pyStrip serr ≠ "") := by
  rw [execute_code_result] at hok
  have hr := executeBody_single_ok language files t o r hok
  subst hr
  rw [ho]
  have hs : (runSingleMode t (SingleOutcome.ok ec sout serr)).fst.stderr
      = (if ec ≠ 0 ∧ pyStrip serr ≠ "" then serr else "") := rfl
  rw [hs]
  by_cases hc : ec ≠ 0 ∧ pyStrip serr ≠ ""
  · rw [if_pos hc]
    refine ⟨fun _ => rfl, ?_, fun _ => hc⟩
    intro hor
    cases hor with
    | inl h0 => exact absurd h0 hc.1
    | inr hbl => exact absurd hbl hc.2
  · rw [if_neg hc]
    exact ⟨fun hcc => absurd hcc hc, fun _ => rfl, fun hne => absurd rfl hne⟩

/-- Witness for C8: a non-zero exit with non-blank stderr surfaces the
stream; a zero exit suppresses it. -/
theorem C8_witness :
    ((1 : Int) ≠ 0 ∧ pyStrip "boom" ≠ ""
      → ((runSingleMode 30 (SingleOutcome.ok 1 "" "boom")).fst.stderr = "boom")) ∧
    ((1 : Int) = 0 ∨ pyStrip "boom" = ""
      → ((runSingleMode 30 (SingleOutcome.ok 1 "" "boom")).fst.stderr = "")) ∧
    ((runSingleMode 30 (SingleOutcome.ok 1 "" "boom")).fst.stderr ≠ ""
      → (1 : Int) ≠ 0 ∧ pyStrip "boom" ≠ "") :=
  C8_single_run_stderr_suppressed_on_success "python" [("main.py", "x")] 30
    (Oracle.mk (SingleOutcome.ok 1 "" "boom") BatchSetup.ok (ExecOutcome.ok 0 "" "")
      (fun _ => ExecOutcome.ok 0 "" ""))
    (FsState.mk false)
    ((runSingleMode 30 (SingleOutcome.ok 1 "" "boom")).fst)
    1 "" "boom" rfl rfl

end DockerExec

namespace DockerExec

theorem processTest_ok_actual_output (t : Int) (idx : Nat) (tc : TestCase) (e : Int)
    (sout serr : String) (hserr : pyStrip serr ≠ "") :
    (processTest t idx tc (ExecOutcome.ok e sout serr)).actual_output
      = (if pyStrip sout ≠ "" then pyStrip sout ++ "\nОшибка: " ++ pyStrip serr
         else "Ошибка: " ++ pyStrip serr) := by
  have hne := ne_empty_of_pyStrip_ne_empty hserr
  unfold processTest execTriple
  simp [hne, hserr]

/-- C6 counterexample: a container-creation failure in batch test-suite mode
is not converted into a normal ExecutionResult; it escapes execute_code as
the underlying docker exception. -/
theorem C6_counterexample :
    (execute_code "python" [("main.py", "x")] 30 [TestCase.mk "" "1"]
      (Oracle.mk (SingleOutcome.ok 0 "" "") (BatchSetup.createFail "image unavailable")
        (ExecOutcome.ok 0 "" "") (fun _ => ExecOutcome.ok 0 "" ""))
      (FsState.mk false)).result
    = Except.error (PyError.dockerError "image unavailable") := by decide

/-- C6 amended: in single-run mode a container setup failure is converted
into a normal ExecutionResult with exit code -1 and a descriptive stderr; in
batch test-suite mode the same failure propagates to the caller as the raised
exception instead of being converted. -/
theorem C6_setup_failure_single_converted_batch_raises (language : String)
    (files : List (String × String)) (t : Int) (msg : String) (tcs : List TestCase)
    (o : Oracle) (fs : FsState) (res : String × String)
    (hres : resolveLanguage language files = Except.ok res)
    (hsup : (List.lookup res.fst LANGUAGE_CONFIG).isSome = true) :
    ((o.single = SingleOutcome.createFail msg ∨ o.single = SingleOutcome.setupFail msg) →
      (execute_code language files t [] o fs).result
        = Except.ok (ExecutionResult.mk "" ("Docker error: " ++ msg) (-1) none none)) ∧
    (tcs ≠ [] → (o.setup = BatchSetup.createFail msg ∨ o.setup = BatchSetup.startFail msg) →
      (execute_code language files t tcs o fs).result
        = Except.error (PyError.dockerError msg)) := by
  constructor
  · intro hor
    rw [execute_code_result, executeBody_single_eq language files t o res hres hsup]
    cases hor with
    | inl h1 => rw [h1]; rfl
    | inr h2 => rw [h2]; rfl
  · intro htcs hor
    obtain ⟨tc0, rest, rfl⟩ := cons_of_ne_nil htcs
    rw [execute_code_result, executeBody_batch_eq language files t tc0 rest o res hres hsup]
    cases hor with
    | inl h1 => rw [h1]; rfl
    | inr h2 => rw [h2]; rfl

/-- Witness for the amended C6: the same creation failure is converted in
single-run mode and escapes in batch mode. -/
theorem C6_witness :
    (execute_code "python" [("main.py", "x")] 30 []
        (Oracle.mk (SingleOutcome.createFail "boom") (BatchSetup.createFail "boom")
          (ExecOutcome.ok 0 "" "") (fun _ => ExecOutcome.ok 0 "" ""))
        (FsState.mk false)).result
      = Except.ok (ExecutionResult.mk "" ("Docker error: " ++ "boom") (-1) none none) ∧
    (execute_code "python" [("main.py", "x")] 30 [TestCase.mk "" "1"]
        (Oracle.mk (SingleOutcome.createFail "boom") (BatchSetup.createFail "boom")
          (ExecOutcome.ok 0 "" "") (fun _ => ExecOutcome.ok 0 "" ""))
        (FsState.mk false)).result
      = Except.error (PyError.dockerError "boom") :=
  ⟨(C6_setup_failure_single_converted_batch_raises "python" [("main.py", "x")] 30 "boom"
      [TestCase.mk "" "1"]
      (Oracle.mk (SingleOutcome.createFail "boom") (BatchSetup.createFail "boom")
        (ExecOutcome.ok 0 "" "") (fun _ => ExecOutcome.ok 0 "" ""))
      (FsState.mk false) ("python", "main.py") rfl rfl).1 (Or.inl rfl),
   (C6_setup_failure_single_converted_batch_raises "python" [("main.py", "x")] 30 "boom"
      [TestCase.mk "" "1"]
      (Oracle.mk (SingleOutcome.createFail "boom") (BatchSetup.createFail "boom")
        (ExecOutcome.ok 0 "" "") (fun _ => ExecOutcome.ok 0 "" ""))
      (FsState.mk false) ("python", "main.py") rfl rfl).2 (by decide) (Or.inl rfl)⟩

/-- C9 counterexample: with a single passing test that emits stderr, the
diagnostic is captured (it is appended to the test's actual output and no
earlier test captured stderr) yet the returned request-level stderr is empty,
not the remembered stream. -/
theorem C9_counterexample :
    (execute_code "python" [("main.py", "x")] 30 [TestCase.mk "" "42"]
      (Oracle.mk (SingleOutcome.ok 0 "" "") BatchSetup.ok (ExecOutcome.ok 0 "" "")
        (fun _ => ExecOutcome.ok 0 "42\n" "DeprecationWarning"))
      (FsState.mk false)).result
    = Except.ok (ExecutionResult.mk
        "Вердикт: ACCEPTED\nПройдено тестов: 1/1\n\n✅ Тест 1: 42\nОшибка: DeprecationWarning (ожидалось: 42)"
        "" 0
        (some [TestResult.mk 1 "" "42" "42\nОшибка: DeprecationWarning" true 0])
        (some "ACCEPTED")) := by decide

/-- C9 amended: in batch mode a test's non-blank stderr is appended to its
actual output as an inline diagnostic, and the first captured stderr becomes
the request-level stderr only when the verdict is WRONG ANSWER; on an
ACCEPTED verdict the request-level stderr is empty. -/
theorem C9_stderr_appended_and_surfaced_only_on_failure (language : String)
    (files : List (String × String)) (t : Int) (tcs : List TestCase) (o : Oracle)
    (fs : FsState) (r : ExecutionResult) (trs : List TestResult) (i : Nat) (e : Int)
    (sout serr : String) (d : TestResult)
    (htcs : tcs ≠ [])
    (hok : (execute_code language files t tcs o fs).result = Except.ok r)
    (htrs : r.test_results = some trs)
    (hi : i < tcs.length)
    (ho : o.tests i = ExecOutcome.ok e sout serr)
    (hserr : pyStrip serr ≠ "") :
    (trs.getD i d).actual_output
      = (if pyStrip sout ≠ "" then pyStrip sout ++ "\nОшибка: " ++ pyStrip serr
         else "Ошибка: " ++ pyStrip serr) ∧
    (r.verdict = some "ACCEPTED" → r.stderr = "") ∧
    (r.verdict = some "WRONG ANSWER" → r.stderr = firstErrorOutput t o.tests tcs) := by
  rw [execute_code_result] at hok
  obtain ⟨tc0, rest, rfl⟩ := cons_of_ne_nil htcs
  have hr := executeBody_batch_ok language files t tc0 rest o r hok
  subst hr
  rw [mkBatchResult_test_results] at htrs
  have htrs' : trs = runTestResults t o.tests (tc0 :: rest) := by simpa using htrs.symm
  subst htrs'
  refine ⟨?_, ?_, ?_⟩
  · rw [runTestResults_getD t o.tests (tc0 :: rest) i d (TestCase.mk "" "") hi, ho,
      processTest_ok_actual_output t i ((tc0 :: rest).getD i (TestCase.mk "" "")) e sout serr hserr]
  · intro hv
    rw [mkBatchResult_verdict] at hv
    rw [mkBatchResult_stderr]
    by_cases hc : (runTestResults t o.tests (tc0 :: rest)).countP (fun tr => tr.passed)
        = (runTestResults t o.tests (tc0 :: rest)).length
    · rw [if_neg]
      intro hand
      exact hand.1 hc
    · rw [if_neg hc] at hv
      exact absurd (Option.some.inj hv) (by decide)
  · intro hv
    rw [mkBatchResult_verdict] at hv
    rw [mkBatchResult_stderr]
    by_cases hc : (runTestResults t o.tests (tc0 :: rest)).countP (fun tr => tr.passed)
        = (runTestResults t o.tests (tc0 :: rest)).length
    · rw [if_pos hc] at hv
      exact absurd (Option.some.inj hv) (by decide)
    · by_cases hfe : firstErrorOutput t o.tests (tc0 :: rest) = ""
      · rw [if_neg]
        · exact hfe.symm
        · intro hand
          exact hand.2 hfe
      · rw [if_pos ⟨hc, hfe⟩]

/-- Witness for the amended C9: a failing test with stderr gets the inline
diagnostic and its stream becomes the request-level stderr. -/
theorem C9_witness :
    ((runTestResults 30 (fun _ => ExecOutcome.ok 1 "7\n" "boom") [TestCase.mk "" "42"]).getD 0
        (TestResult.mk 0 "" "" "" false 0)).actual_output
      = (if pyStrip "7\n" ≠ "" then pyStrip "7\n" ++ "\nОшибка: " ++ pyStrip "boom"
         else "Ошибка: " ++ pyStrip "boom") ∧
    ((mkBatchResult 30 (fun _ => ExecOutcome.ok 1 "7\n" "boom") [TestCase.mk "" "42"]).verdict
        = some "ACCEPTED"
      → (mkBatchResult 30 (fun _ => ExecOutcome.ok 1 "7\n" "boom")
          [TestCase.mk "" "42"]).stderr = "") ∧
    ((mkBatchResult 30 (fun _ => ExecOutcome.ok 1 "7\n" "boom") [TestCase.mk "" "42"]).verdict
        = some "WRONG ANSWER"
      → (mkBatchResult 30 (fun _ => ExecOutcome.ok 1 "7\n" "boom")
          [TestCase.mk "" "42"]).stderr
        = firstErrorOutput 30 (fun _ => ExecOutcome.ok 1 "7\n" "boom") [TestCase.mk "" "42"]) :=
  C9_stderr_appended_and_surfaced_only_on_failure "python" [("main.py", "x")] 30
    [TestCase.mk "" "42"]
    (Oracle.mk (SingleOutcome.ok 0 "" "") BatchSetup.ok (ExecOutcome.ok 0 "" "")
      (fun _ => ExecOutcome.ok 1 "7\n" "boom"))
    (FsState.mk false)
    (mkBatchResult 30 (fun _ => ExecOutcome.ok 1 "7\n" "boom") [TestCase.mk "" "42"])
    (runTestResults 30 (fun _ => ExecOutcome.ok 1 "7\n" "boom") [TestCase.mk "" "42"])
    0 1 "7\n" "boom" (TestResult.mk 0 "" "" "" false 0)
    (by decide) rfl rfl (by decide) rfl (by decide)

theorem runBatch_setup_ok_compile_ok (lang : String) (t : Int) (tcs : List TestCase)
    (e : Int) (s r : String) (o : Nat → ExecOutcome) :
    runBatch lang t tcs BatchSetup.ok (ExecOutcome.ok e s r) o
      = (Except.ok (mkBatchResult t o tcs), 1) := by
  simp [runBatch]

/-- C10: in batch mode for a compiled language, the result of the one-time
compile step that completed normally is discarded: the entire observable
outcome of execute_code is unchanged under any other normally-completing
compile outcome (including a non-zero compile exit code), no error is
recorded anywhere, and all N test cases are still run and reported. -/
theorem C10_compile_outcome_discarded (language : String)
    (files : List (String × String)) (t : Int) (tcs : List TestCase) (o : Oracle)
    (e1 : Int) (s1 r1 : String) (e2 : Int) (s2 r2 : String) (fs : FsState)
    (res : String × String)
    (hres : resolveLanguage language files = Except.ok res)
    (hsup : (List.lookup res.fst LANGUAGE_CONFIG).isSome = true)
    (_hcomp : needsCompile res.fst = true)
    (htcs : tcs ≠ [])
    (hsetup : o.setup = BatchSetup.ok)
    (hc : o.compile = ExecOutcome.ok e1 s1 r1) :
    execute_code language files t tcs o fs
      = execute_code language files t tcs
          (Oracle.mk o.single o.setup (ExecOutcome.ok e2 s2 r2) o.tests) fs ∧
    Except.map (fun r => r.test_results.map List.length)
        (execute_code language files t tcs o fs).result
      = Except.ok (some tcs.length) := by
  obtain ⟨tc0, rest, rfl⟩ := cons_of_ne_nil htcs
  have h1 := executeBody_batch_eq language files t tc0 rest o res hres hsup
  have h2 := executeBody_batch_eq language files t tc0 rest
    (Oracle.mk o.single o.setup (ExecOutcome.ok e2 s2 r2) o.tests) res hres hsup
  have hbody1 : executeBody language files t (tc0 :: rest) o
      = (Except.ok (mkBatchResult t o.tests (tc0 :: rest)), 1) := by
    rw [h1, hsetup, hc, runBatch_setup_ok_compile_ok]
  have hbody2 : executeBody language files t (tc0 :: rest)
        (Oracle.mk o.single o.setup (ExecOutcome.ok e2 s2 r2) o.tests)
      = (Except.ok (mkBatchResult t o.tests (tc0 :: rest)), 1) := by
    rw [h2, hsetup]
    exact runBatch_setup_ok_compile_ok res.fst t (tc0 :: rest) e2 s2 r2 o.tests
  constructor
  · unfold execute_code
    rw [hbody1, hbody2]
  · rw [execute_code_result, hbody1]
    show Except.ok ((some (runTestResults t o.tests (tc0 :: rest))).map List.length)
      = Except.ok (some (tc0 :: rest).length)
    simp [runTestResults_length]

/-- Witness for C10: a go suite whose compile step exits 2 with an error
message behaves exactly as one whose compile step succeeds, and its one test
is still reported. -/
theorem C10_witness :
    execute_code "go" [("main.go", "x")] 30 [TestCase.mk "" "1"]
        (Oracle.mk (SingleOutcome.ok 0 "" "") BatchSetup.ok
          (ExecOutcome.ok 2 "" "undefined: foo") (fun _ => ExecOutcome.ok 0 "" ""))
        (FsState.mk false)
      = execute_code "go" [("main.go", "x")] 30 [TestCase.mk "" "1"]
          (Oracle.mk (SingleOutcome.ok 0 "" "") BatchSetup.ok (ExecOutcome.ok 0 "" "")
            (fun _ => ExecOutcome.ok 0 "" "")) (FsState.mk false) ∧
    Except.map (fun r => r.test_results.map List.length)
        (execute_code "go" [("main.go", "x")] 30 [TestCase.mk "" "1"]
          (Oracle.mk (SingleOutcome.ok 0 "" "") BatchSetup.ok
            (ExecOutcome.ok 2 "" "undefined: foo") (fun _ => ExecOutcome.ok 0 "" ""))
          (FsState.mk false)).result
      = Except.ok (some ([TestCase.mk "" "1"].length)) :=
  C10_compile_outcome_discarded "go" [("main.go", "x")] 30 [TestCase.mk "" "1"]
    (Oracle.mk (SingleOutcome.ok 0 "" "") BatchSetup.ok (ExecOutcome.ok 2 "" "undefined: foo")
      (fun _ => ExecOutcome.ok 0 "" ""))
    2 "" "undefined: foo" 0 "" "" (FsState.mk false) ("go", "main.go")
    rfl rfl rfl (by decide) rfl rfl

end DockerExec
